import Mathlib

/-!
Verification of the research-report pipeline of this repository.

The definitions below shallowly embed the code of
src/src/open_deep_research/simple_graph.py (the planner, the section
processor, the fan-out router, the merge reducer and the final-report
node) and src/app.py (the WebSocket runner and its connection manager).
External collaborators (the language-model client reached through
init_chat_model / with_structured_output, and the search function
select_and_execute_search from open_deep_research.utils) are modelled as
explicit function-valued parameters, exactly at the boundary where the
embedded code calls them; every value the embedded code computes from
their answers follows the Python source line by line.
-/

set_option linter.unusedVariables false

deriving instance DecidableEq for Except

namespace DeepResearch

/-- Structured output schema InitialSections (simple_graph.py lines 18-22). -/
structure InitialSections where
  section_1 : String
  section_2 : String
  section_3 : String
deriving DecidableEq, Repr

/-- SectionResult (simple_graph.py lines 42-47). -/
structure SectionResult where
  section_name : String
  queries : List String
  content : String
  summary : String
deriving DecidableEq, Repr

/-- SectionProcessingState (simple_graph.py lines 58-62): the payload of one
Send dispatched by the router. -/
structure SectionProcessingState where
  topic : String
  section_name : String
  section_description : String
deriving DecidableEq, Repr

/-- SimpleWorkflowConfiguration (simple_graph.py lines 65-72). -/
structure SimpleWorkflowConfiguration where
  model_provider : String
  model_name : String
  search_api : String
  number_of_queries_per_section : Nat
  max_results_per_query : Nat
deriving DecidableEq, Repr

/-- The dataclass defaults of SimpleWorkflowConfiguration, which is also the
configuration that app.py lines 94-103 builds for every run. -/
def default_config : SimpleWorkflowConfiguration :=
  ⟨"openai", "gpt-4o", "tavily", 3, 5⟩

/-- A failure of a structured or free-form language-model call. -/
structure GenerationError where
  message : String
deriving DecidableEq, Repr

/-- A failure raised by the retrieval call select_and_execute_search. -/
structure SearchError where
  message : String
deriving DecidableEq, Repr

/-- An unhandled exception escaping a node of the graph. -/
inductive RunError where
  | generation (e : GenerationError)
  | search (e : SearchError)
deriving DecidableEq, Repr

/-- The str(e) rendering used by app.py line 153. -/
def errString : RunError → String
  | .generation e => e.message
  | .search e => e.message

/-- One invocation of the progress callback: the (step, message, progress)
triple passed at each checkpoint (details argument omitted). -/
structure ProgressEvent where
  step : String
  message : String
  progress : Nat
deriving DecidableEq, Repr

/-- One call made to select_and_execute_search: the argument triple of
simple_graph.py lines 197-198. -/
structure RetrievalCall where
  search_api : String
  queries : List String
  max_results : Nat
deriving DecidableEq, Repr

/-- The external collaborators of the pipeline: each field is one of the
network calls the Python code awaits, abstracted at its call boundary. -/
structure Collaborators where
  plan_sections : String → Except GenerationError InitialSections
  generate_queries : String → String → String → Except GenerationError (List String)
  select_and_execute_search : String → List String → Nat → Except SearchError String
  summarize_section : String → String → String → String → Except GenerationError String
  compile_report : String → String → Except GenerationError String

/-- Checkpoint "planning" (simple_graph.py lines 82-87). -/
def planning_event : ProgressEvent :=
  ⟨"planning", "Analyzing topic and creating research outline...", 10⟩

/-- Checkpoint "planning_complete" (simple_graph.py lines 119-126). -/
def planning_complete_event : ProgressEvent :=
  ⟨"planning_complete", "Research outline created with 3 sections", 25⟩

/-- Node generate_initial_summary (simple_graph.py lines 76-128): emits the
planning checkpoints when a progress callback is configured, asks the model
for an InitialSections value, and labels the three fields as the keys
"Section 1", "Section 2", "Section 3" in that order.  The returned mapping
is modelled as an association list in insertion order. -/
def generate_initial_summary (c : Collaborators) (cb : Bool) (topic : String) :
    List ProgressEvent × Except RunError (List (String × String)) :=
  let ev1 := if cb then [planning_event] else []
  match c.plan_sections topic with
  | .error e => (ev1, .error (.generation e))
  | .ok r =>
      (ev1 ++ (if cb then [planning_complete_event] else []),
       .ok [("Section 1", r.section_1), ("Section 2", r.section_2),
            ("Section 3", r.section_3)])

/-- route_to_section_processing (simple_graph.py lines 131-144): one Send per
entry of initial_sections, in iteration (= insertion) order. -/
def route_to_section_processing (topic : String)
    (initial_sections : List (String × String)) : List SectionProcessingState :=
  initial_sections.map fun p => ⟨topic, p.1, p.2⟩

/-- Checkpoint "query_generation" (simple_graph.py lines 161-167). -/
def query_generation_event (name : String) : ProgressEvent :=
  ⟨"query_generation", "Generating search queries for section: " ++ name, 35⟩

/-- Checkpoint "researching" (simple_graph.py lines 189-195). -/
def researching_event (name : String) : ProgressEvent :=
  ⟨"researching", "Conducting web searches for section: " ++ name, 50⟩

/-- Checkpoint "writing" (simple_graph.py lines 204-210). -/
def writing_event (name : String) : ProgressEvent :=
  ⟨"writing", "Writing detailed summary for section: " ++ name, 75⟩

/-- Everything one process_section invocation produces: its checkpoint
events, the retrieval calls it makes, and its settlement. -/
structure SectionOutcome where
  events : List ProgressEvent
  retrieval_calls : List RetrievalCall
  result : Except RunError SectionResult
deriving DecidableEq, Repr

/-- Node process_section (simple_graph.py lines 147-248): generate queries
(structured call), retrieve with the literal arguments "tavily" and
max_results = 5 of lines 197-198, summarize, and return the singleton
update.  The configuration record is received (as the Python node receives
config) but, exactly as in the source, none of its fields is read: the
model name, the search api and the result bound are hard-coded literals. -/
def process_section (c : Collaborators) (cfg : SimpleWorkflowConfiguration)
    (cb : Bool) (s : SectionProcessingState) : SectionOutcome :=
  let ev1 := if cb then [query_generation_event s.section_name] else []
  match c.generate_queries s.topic s.section_name s.section_description with
  | .error e => ⟨ev1, [], .error (.generation e)⟩
  | .ok queries =>
    let ev2 := if cb then [researching_event s.section_name] else []
    match c.select_and_execute_search "tavily" queries 5 with
    | .error e => ⟨ev1 ++ ev2, [⟨"tavily", queries, 5⟩], .error (.search e)⟩
    | .ok search_results =>
      let content := search_results
      let ev3 := if cb then [writing_event s.section_name] else []
      match c.summarize_section s.topic s.section_name s.section_description content with
      | .error e => ⟨ev1 ++ ev2 ++ ev3, [⟨"tavily", queries, 5⟩], .error (.generation e)⟩
      | .ok summary =>
          ⟨ev1 ++ ev2 ++ ev3, [⟨"tavily", queries, 5⟩],
           .ok ⟨s.section_name, queries, content, summary⟩⟩

/-- The Annotated[List[SectionResult], add] reducer of SimpleReportState
(simple_graph.py line 55): the contributions of the settled tasks are merged
by list concatenation. -/
def merge_section_results (contribs : List (List SectionResult)) : List SectionResult :=
  contribs.foldl (fun acc c => acc ++ c) []

/-- The settlement of the fan-out: langgraph raises the first unhandled
exception of any parallel branch, so the joined state exists only when every
dispatched task settled successfully. -/
def collect_settlements : List (Except RunError SectionResult) →
    Except RunError (List SectionResult)
  | [] => .ok []
  | .error e :: _ => .error e
  | .ok r :: rest =>
      match collect_settlements rest with
      | .error e => .error e
      | .ok rs => .ok (r :: rs)

/-- Checkpoint "finalizing" (simple_graph.py lines 257-263). -/
def finalizing_event : ProgressEvent :=
  ⟨"finalizing", "Compiling final report...", 90⟩

/-- The sections_text accumulation of simple_graph.py lines 272-278. -/
def sections_text (results : List SectionResult) : String :=
  results.foldl (fun acc sr => acc ++ "\n\n## " ++ sr.section_name ++ "\n" ++ sr.summary) ""

/-- Node generate_final_report (simple_graph.py lines 251-304). -/
def generate_final_report (c : Collaborators) (cb : Bool) (topic : String)
    (section_results : List SectionResult) : List ProgressEvent × Except RunError String :=
  let ev1 := if cb then [finalizing_event] else []
  match c.compile_report topic (sections_text section_results) with
  | .error e => (ev1, .error (.generation e))
  | .ok report => (ev1, .ok report)

/-- The terminal SimpleReportState of a successful run
(simple_graph.py lines 51-56). -/
structure SimpleReportState where
  topic : String
  initial_sections : List (String × String)
  section_results : List SectionResult
  final_report : String
deriving DecidableEq, Repr

/-- Everything one graph invocation produces. -/
structure GraphOutcome where
  events : List ProgressEvent
  retrieval_calls : List RetrievalCall
  result : Except RunError SimpleReportState
deriving DecidableEq, Repr

/-- simple_graph.ainvoke over the graph wired in create_simple_research_graph
(simple_graph.py lines 307-329): generate_initial_summary, then the
conditional fan-out of route_to_section_processing, the merge of singleton
section_results contributions through the add reducer, and
generate_final_report.  The dispatched tasks are settled in plan order; an
error in any settled task aborts the run before the final report. -/
def simple_graph_ainvoke (c : Collaborators) (cfg : SimpleWorkflowConfiguration)
    (cb : Bool) (topic : String) : GraphOutcome :=
  match (generate_initial_summary c cb topic).2 with
  | .error e => ⟨(generate_initial_summary c cb topic).1, [], .error e⟩
  | .ok initial_sections =>
    match collect_settlements ((route_to_section_processing topic initial_sections).map
        fun s => (process_section c cfg cb s).result) with
    | .error e =>
        ⟨(generate_initial_summary c cb topic).1 ++
          ((route_to_section_processing topic initial_sections).map
            fun s => (process_section c cfg cb s).events).flatten,
         ((route_to_section_processing topic initial_sections).map
            fun s => (process_section c cfg cb s).retrieval_calls).flatten,
         .error e⟩
    | .ok results =>
      match (generate_final_report c cb topic
          (merge_section_results (results.map fun r => [r]))).2 with
      | .error e =>
          ⟨(generate_initial_summary c cb topic).1 ++
            ((route_to_section_processing topic initial_sections).map
              fun s => (process_section c cfg cb s).events).flatten ++
            (generate_final_report c cb topic
              (merge_section_results (results.map fun r => [r]))).1,
           ((route_to_section_processing topic initial_sections).map
              fun s => (process_section c cfg cb s).retrieval_calls).flatten,
           .error e⟩
      | .ok final_report =>
          ⟨(generate_initial_summary c cb topic).1 ++
            ((route_to_section_processing topic initial_sections).map
              fun s => (process_section c cfg cb s).events).flatten ++
            (generate_final_report c cb topic
              (merge_section_results (results.map fun r => [r]))).1,
           ((route_to_section_processing topic initial_sections).map
              fun s => (process_section c cfg cb s).retrieval_calls).flatten,
           .ok ⟨topic, initial_sections,
                merge_section_results (results.map fun r => [r]), final_report⟩⟩

/-- One message sent through ConnectionManager.send_update (app.py): its
"type" field, optional "step", "message" and "progress" entries. -/
structure UpdateMessage where
  type : String
  step : Option String
  message : String
  progress : Nat
deriving DecidableEq, Repr

/-- The progress_callback of app.py lines 114-121: every checkpoint of the
graph is forwarded as a type "status" update. -/
def app_status (e : ProgressEvent) : UpdateMessage :=
  ⟨"status", some e.step, e.message, e.progress⟩

/-- The initial status update of app.py lines 86-91. -/
def initializing_update (topic : String) : UpdateMessage :=
  ⟨"status", some "initializing", "Starting research on: " ++ topic, 0⟩

/-- The app-level planning update of app.py lines 106-111. -/
def app_planning_update : UpdateMessage :=
  ⟨"status", some "planning", "Analyzing topic and creating research outline...", 10⟩

/-- The completion update of app.py lines 130-148. -/
def complete_update : UpdateMessage :=
  ⟨"complete", some "complete", "Research completed successfully!", 100⟩

/-- The error update of app.py lines 150-155: one notification, progress 0. -/
def error_update (e : RunError) : UpdateMessage :=
  ⟨"error", none, "Error during research: " ++ errString e, 0⟩

/-- The sequence of updates one call of run_research_with_updates (app.py
lines 81-155) attempts to deliver: the two preliminary status updates, every
checkpoint the graph reports through the installed progress_callback, then
the single terminal update — complete on success, error on any exception. -/
def attempted_messages (c : Collaborators) (topic : String) : List UpdateMessage :=
  [initializing_update topic, app_planning_update] ++
    (simple_graph_ainvoke c default_config true topic).events.map app_status ++
    (match (simple_graph_ainvoke c default_config true topic).result with
     | .ok _ => [complete_update]
     | .error e => [error_update e])

/-- The state of ConnectionManager for one session: whether the session is
still registered, and the updates actually delivered over the socket. -/
structure ConnState where
  connected : Bool
  sent : List UpdateMessage
deriving DecidableEq, Repr

/-- ConnectionManager.send_update (app.py lines 43-48): not connected means
a silent no-op; a failing send_text is caught and the session is
disconnected — the failure never propagates to the caller. -/
def send_update (deliver_ok : Bool) (s : ConnState) (m : UpdateMessage) : ConnState :=
  if s.connected then
    if deliver_ok then ⟨true, s.sent ++ [m]⟩ else ⟨false, s.sent⟩
  else s

/-- Delivery of a list of updates in order; the k-th send_text attempt
succeeds exactly when the fault schedule f allows it. -/
def deliver_messages (f : Nat → Bool) : ConnState → Nat → List UpdateMessage → ConnState
  | s, _, [] => s
  | s, k, m :: ms => deliver_messages f (send_update (f k) s m) (k + 1) ms

/-- run_research_with_updates (app.py lines 81-155) for one session under a
delivery-fault schedule f. -/
def run_research_with_updates (c : Collaborators) (f : Nat → Bool) (topic : String) :
    ConnState :=
  deliver_messages f ⟨true, []⟩ 0 (attempted_messages c topic)

/-- One scheduling of the concurrent section tasks: interleaveRun plays a
choice sequence against the per-task checkpoint queues, at each step popping
the head of the chosen queue; it succeeds when every queue is drained. -/
def interleaveRun {α : Type} : List Nat → List (List α) → Option (List α)
  | [], ls => if ls.all List.isEmpty then some [] else none
  | i :: is, ls =>
      match ls[i]? with
      | some (x :: rest) => (interleaveRun is (ls.set i rest)).map (x :: ·)
      | _ => none

/-- t is an order of concurrent emission of the queues ls. -/
def IsInterleaving {α : Type} (ls : List (List α)) (t : List α) : Prop :=
  ∃ choices : List Nat, interleaveRun choices ls = some t

/-- The update streams a successful run can produce: the fixed serial
prefix, then any interleaving of the concurrent section tasks' checkpoint
queues, then the fixed serial suffix ending in the completion update. -/
def successful_run_trace (c : Collaborators) (topic : String)
    (t : List UpdateMessage) : Prop :=
  ∃ secs mid st,
    (generate_initial_summary c true topic).2 = .ok secs ∧
    (simple_graph_ainvoke c default_config true topic).result = .ok st ∧
    IsInterleaving ((route_to_section_processing topic secs).map
      fun s => (process_section c default_config true s).events) mid ∧
    t = [initializing_update topic, app_planning_update] ++
        ((generate_initial_summary c true topic).1 ++ mid ++
         (generate_final_report c true topic st.section_results).1).map app_status ++
        [complete_update]

/-! Helper lemmas about the embedded nodes. -/

theorem gis_ok_iff (c : Collaborators) (cb : Bool) (topic : String)
    (secs : List (String × String)) :
    (generate_initial_summary c cb topic).2 = .ok secs ↔
    ∃ r, c.plan_sections topic = .ok r ∧
      secs = [("Section 1", r.section_1), ("Section 2", r.section_2),
              ("Section 3", r.section_3)] := by
  unfold generate_initial_summary
  cases hp : c.plan_sections topic <;> simp [hp, eq_comm]

theorem gis_ok_events (c : Collaborators) (topic : String)
    (secs : List (String × String))
    (h : (generate_initial_summary c true topic).2 = .ok secs) :
    (generate_initial_summary c true topic).1 = [planning_event, planning_complete_event] := by
  unfold generate_initial_summary at h ⊢
  cases hp : c.plan_sections topic <;> simp [hp] at h ⊢

theorem gis_events_nocb (c : Collaborators) (topic : String) :
    (generate_initial_summary c false topic).1 = [] := by
  unfold generate_initial_summary
  cases hp : c.plan_sections topic <;> simp [hp]

theorem gis_result_cb (c : Collaborators) (cb : Bool) (topic : String) :
    (generate_initial_summary c cb topic).2 = (generate_initial_summary c true topic).2 := by
  unfold generate_initial_summary
  cases hp : c.plan_sections topic <;> simp [hp]

theorem process_section_ok_iff (c : Collaborators) (cfg : SimpleWorkflowConfiguration)
    (cb : Bool) (s : SectionProcessingState) (r : SectionResult) :
    (process_section c cfg cb s).result = .ok r ↔
    ∃ q cs sm,
      c.generate_queries s.topic s.section_name s.section_description = .ok q ∧
      c.select_and_execute_search "tavily" q 5 = .ok cs ∧
      c.summarize_section s.topic s.section_name s.section_description cs = .ok sm ∧
      r = ⟨s.section_name, q, cs, sm⟩ := by
  unfold process_section
  cases hq : c.generate_queries s.topic s.section_name s.section_description <;> simp [hq]
  case ok q =>
    cases hs : c.select_and_execute_search "tavily" q 5 <;> simp [hs]
    case ok cs =>
      cases hm : c.summarize_section s.topic s.section_name s.section_description cs <;>
        simp [hm, eq_comm]

theorem process_section_ok_events (c : Collaborators) (cfg : SimpleWorkflowConfiguration)
    (s : SectionProcessingState) (r : SectionResult)
    (h : (process_section c cfg true s).result = .ok r) :
    (process_section c cfg true s).events =
      [query_generation_event s.section_name, researching_event s.section_name,
       writing_event s.section_name] := by
  rw [process_section_ok_iff] at h
  obtain ⟨q, cs, sm, hq, hs, hm, rfl⟩ := h
  unfold process_section
  simp [hq, hs, hm]

theorem process_events_nocb (c : Collaborators) (cfg : SimpleWorkflowConfiguration)
    (s : SectionProcessingState) :
    (process_section c cfg false s).events = [] := by
  unfold process_section
  cases hq : c.generate_queries s.topic s.section_name s.section_description <;> simp [hq]
  case ok q =>
    cases hs : c.select_and_execute_search "tavily" q 5 <;> simp [hs]
    case ok cs =>
      cases hm : c.summarize_section s.topic s.section_name s.section_description cs <;>
        simp [hm]

theorem process_result_cb (c : Collaborators) (cfg : SimpleWorkflowConfiguration)
    (cb : Bool) (s : SectionProcessingState) :
    (process_section c cfg cb s).result = (process_section c cfg true s).result := by
  unfold process_section
  cases hq : c.generate_queries s.topic s.section_name s.section_description <;> simp [hq]
  case ok q =>
    cases hs : c.select_and_execute_search "tavily" q 5 <;> simp [hs]
    case ok cs =>
      cases hm : c.summarize_section s.topic s.section_name s.section_description cs <;>
        simp [hm]

theorem process_calls_cb (c : Collaborators) (cfg : SimpleWorkflowConfiguration)
    (cb : Bool) (s : SectionProcessingState) :
    (process_section c cfg cb s).retrieval_calls =
      (process_section c cfg true s).retrieval_calls := by
  unfold process_section
  cases hq : c.generate_queries s.topic s.section_name s.section_description <;> simp [hq]
  case ok q =>
    cases hs : c.select_and_execute_search "tavily" q 5 <;> simp [hs]
    case ok cs =>
      cases hm : c.summarize_section s.topic s.section_name s.section_description cs <;>
        simp [hm]

theorem process_calls_spec (c : Collaborators) (cfg : SimpleWorkflowConfiguration)
    (cb : Bool) (s : SectionProcessingState) :
    ∀ call ∈ (process_section c cfg cb s).retrieval_calls,
      call.max_results = 5 ∧ call.search_api = "tavily" := by
  unfold process_section
  cases hq : c.generate_queries s.topic s.section_name s.section_description <;> simp [hq]
  case ok q =>
    cases hs : c.select_and_execute_search "tavily" q 5 <;> simp [hs]
    case ok cs =>
      cases hm : c.summarize_section s.topic s.section_name s.section_description cs <;>
        simp [hm]

theorem gfr_result_cb (c : Collaborators) (cb : Bool) (topic : String)
    (rs : List SectionResult) :
    (generate_final_report c cb topic rs).2 = (generate_final_report c true topic rs).2 := by
  unfold generate_final_report
  cases hf : c.compile_report topic (sections_text rs) <;> simp [hf]

theorem gfr_events_cb_true (c : Collaborators) (topic : String) (rs : List SectionResult) :
    (generate_final_report c true topic rs).1 = [finalizing_event] := by
  unfold generate_final_report
  cases hf : c.compile_report topic (sections_text rs) <;> simp [hf]

theorem gfr_events_nocb (c : Collaborators) (topic : String) (rs : List SectionResult) :
    (generate_final_report c false topic rs).1 = [] := by
  unfold generate_final_report
  cases hf : c.compile_report topic (sections_text rs) <;> simp [hf]

theorem merge_section_results_eq_flatten (contribs : List (List SectionResult)) :
    merge_section_results contribs = contribs.flatten := by
  suffices h : ∀ (cs : List (List SectionResult)) (acc : List SectionResult),
      cs.foldl (fun a b => a ++ b) acc = acc ++ cs.flatten by
    simpa [merge_section_results] using h contribs []
  intro cs
  induction cs with
  | nil => simp
  | cons x xs ih => intro acc; simp [ih, List.append_assoc]

theorem merge_singletons (l : List SectionResult) :
    merge_section_results (l.map fun r => [r]) = l := by
  rw [merge_section_results_eq_flatten]
  induction l with
  | nil => simp
  | cons x xs ih => simp [ih]

theorem map_ok_inj (a b : List SectionResult)
    (h : a.map (Except.ok : SectionResult → Except RunError SectionResult) =
         b.map Except.ok) : a = b :=
  List.map_injective_iff.mpr (fun x y hxy => Except.ok.inj hxy) h

theorem collect_settlements_ok_iff (l : List (Except RunError SectionResult))
    (rs : List SectionResult) :
    collect_settlements l = .ok rs ↔ l = rs.map Except.ok := by
  induction l generalizing rs with
  | nil => cases rs <;> simp [collect_settlements]
  | cons x xs ih =>
    cases x with
    | error e => cases rs <;> simp [collect_settlements]
    | ok r =>
      simp only [collect_settlements]
      cases hc : collect_settlements xs with
      | error e =>
        cases rs with
        | nil => simp
        | cons r2 rs2 =>
          have hne : xs ≠ rs2.map Except.ok := by
            intro hh
            have h2 := (ih rs2).mpr hh
            rw [hc] at h2
            exact Except.noConfusion h2
          simp [hne]
      | ok rs3 =>
        have hx : xs = rs3.map Except.ok := (ih rs3).mp hc
        subst hx
        cases rs with
        | nil => simp
        | cons r2 rs2 =>
          simp only [List.map_cons, Except.ok.injEq, List.cons.injEq]
          constructor
          · rintro ⟨h1, h2⟩
            subst h1; subst h2
            exact ⟨rfl, rfl⟩
          · rintro ⟨h1, h2⟩
            subst h1
            exact ⟨rfl, map_ok_inj _ _ h2⟩

theorem graph_ok_iff (c : Collaborators) (cfg : SimpleWorkflowConfiguration)
    (cb : Bool) (topic : String) (st : SimpleReportState) :
    (simple_graph_ainvoke c cfg cb topic).result = .ok st ↔
    ∃ secs results report,
      (generate_initial_summary c cb topic).2 = .ok secs ∧
      collect_settlements ((route_to_section_processing topic secs).map
        fun s => (process_section c cfg cb s).result) = .ok results ∧
      (generate_final_report c cb topic results).2 = .ok report ∧
      st = ⟨topic, secs, results, report⟩ := by
  unfold simple_graph_ainvoke
  simp only [merge_singletons]
  split
  next e heq => simp [heq]
  next secs heq =>
    split
    next e2 heq2 => simp [heq, heq2]
    next results heq2 =>
      split
      next e3 heq3 => simp [heq, heq2, heq3]
      next report heq3 => simp [heq, heq2, heq3, eq_comm]

theorem graph_result_cb (c : Collaborators) (cfg : SimpleWorkflowConfiguration)
    (cb : Bool) (topic : String) :
    (simple_graph_ainvoke c cfg cb topic).result =
      (simple_graph_ainvoke c cfg true topic).result := by
  have hmap : ∀ secs : List (String × String),
      ((route_to_section_processing topic secs).map
        fun s => (process_section c cfg cb s).result) =
      ((route_to_section_processing topic secs).map
        fun s => (process_section c cfg true s).result) := by
    intro secs
    exact List.map_congr_left fun s _ => process_result_cb c cfg cb s
  unfold simple_graph_ainvoke
  rw [gis_result_cb]
  split
  next e heq => rfl
  next secs heq =>
    rw [hmap]
    split
    next e2 heq2 => rfl
    next results heq2 =>
      rw [gfr_result_cb]
      split
      next e3 heq3 => rfl
      next report heq3 => rfl

theorem flatten_map_nil (l : List SectionProcessingState) :
    (l.map fun _ => ([] : List ProgressEvent)).flatten = [] := by
  induction l with
  | nil => rfl
  | cons x xs ih => simp [ih]

theorem graph_events_nocb (c : Collaborators) (cfg : SimpleWorkflowConfiguration)
    (topic : String) :
    (simple_graph_ainvoke c cfg false topic).events = [] := by
  unfold simple_graph_ainvoke
  split
  next e heq => exact gis_events_nocb c topic
  next secs heq =>
    have hev : ((route_to_section_processing topic secs).map
        fun s => (process_section c cfg false s).events) =
        ((route_to_section_processing topic secs).map
          fun _ => ([] : List ProgressEvent)) :=
      List.map_congr_left fun s _ => process_events_nocb c cfg s
    split
    next e2 heq2 =>
      simp [hev, flatten_map_nil, gis_events_nocb]
    next results heq2 =>
      split
      next e3 heq3 =>
        simp [hev, flatten_map_nil, gis_events_nocb, gfr_events_nocb]
      next report heq3 =>
        simp [hev, flatten_map_nil, gis_events_nocb, gfr_events_nocb]

theorem graph_error_of_task_fail (c : Collaborators) (cfg : SimpleWorkflowConfiguration)
    (cb : Bool) (topic : String) (secs : List (String × String))
    (s : SectionProcessingState) (e0 : RunError)
    (hplan : (generate_initial_summary c cb topic).2 = .ok secs)
    (hs : s ∈ route_to_section_processing topic secs)
    (hfail : (process_section c cfg cb s).result = .error e0) :
    ∃ e, (simple_graph_ainvoke c cfg cb topic).result = .error e := by
  cases hres : (simple_graph_ainvoke c cfg cb topic).result with
  | error e => exact ⟨e, rfl⟩
  | ok st =>
    rw [graph_ok_iff] at hres
    obtain ⟨secs2, results, report, hp2, hc, hf2, hst⟩ := hres
    rw [hplan] at hp2
    injection hp2 with hp2
    subst hp2
    rw [collect_settlements_ok_iff] at hc
    have hmem : (process_section c cfg cb s).result ∈
        ((route_to_section_processing topic secs).map
          fun t => (process_section c cfg cb t).result) :=
      List.mem_map_of_mem _ hs
    rw [hc] at hmem
    obtain ⟨r, _, hr⟩ := List.mem_map.mp hmem
    rw [hfail] at hr
    exact absurd hr (by simp)

theorem collect_map_names (c : Collaborators) (cfg : SimpleWorkflowConfiguration)
    (cb : Bool) (tasks : List SectionProcessingState) (results : List SectionResult)
    (h : collect_settlements (tasks.map fun s => (process_section c cfg cb s).result)
      = .ok results) :
    results.length = tasks.length ∧
    results.map SectionResult.section_name =
      tasks.map SectionProcessingState.section_name := by
  rw [collect_settlements_ok_iff] at h
  induction tasks generalizing results with
  | nil =>
    simp only [List.map_nil] at h
    have : results = [] := by
      cases results with
      | nil => rfl
      | cons r rs => exact absurd h.symm (by simp)
    subst this
    simp
  | cons t ts ih =>
    cases results with
    | nil => exact absurd h (by simp)
    | cons r rs =>
      simp only [List.map_cons, List.cons.injEq] at h
      obtain ⟨h1, h2⟩ := h
      have hname : r.section_name = t.section_name := by
        have := (process_section_ok_iff c cfg cb t r).mp h1
        obtain ⟨q, cs, sm, _, _, _, rfl⟩ := this
        rfl
      have := ih rs h2
      simp [hname, this.1, this.2]

theorem perm_flatten (l1 l2 : List (List SectionResult)) (h : l1.Perm l2) :
    l1.flatten.Perm l2.flatten := by
  induction h with
  | nil => rfl
  | cons x _ ih => simpa using ih.append_left x
  | swap x y l =>
    simp only [List.flatten_cons]
    rw [← List.append_assoc, ← List.append_assoc]
    exact List.perm_append_comm.append_right _
  | trans _ _ ih1 ih2 => exact ih1.trans ih2

theorem interleaveRun_sublist {α : Type} (choices : List Nat) (ls : List (List α))
    (t : List α) (h : interleaveRun choices ls = some t) :
    ∀ (j : Nat) (l : List α), ls[j]? = some l → l.Sublist t := by
  induction choices generalizing ls t with
  | nil =>
    intro j l hj
    unfold interleaveRun at h
    by_cases hall : ls.all List.isEmpty
    · simp only [hall, if_true] at h
      injection h with h
      subst h
      have hl : l.isEmpty := List.all_eq_true.mp hall l (List.getElem?_mem hj)
      cases l with
      | nil => exact List.Sublist.refl []
      | cons x xs => exact absurd hl (by simp)
    · simp [hall] at h
  | cons i is ih =>
    intro j l hj
    unfold interleaveRun at h
    cases hi : ls[i]? with
    | none => rw [hi] at h; exact absurd h (by simp)
    | some li =>
      cases li with
      | nil => rw [hi] at h; exact absurd h (by simp)
      | cons x rest =>
        rw [hi] at h
        simp only [Option.map_eq_some'] at h
        obtain ⟨t2, ht2, rfl⟩ := h
        have hilen : i < ls.length := by
          by_contra hlen
          rw [List.getElem?_eq_none (Nat.le_of_not_lt hlen)] at hi
          exact Option.noConfusion hi
        by_cases hij : j = i
        · subst hij
          rw [hi] at hj
          injection hj with hj
          subst hj
          have hrest : (ls.set j rest)[j]? = some rest := by
            simp [List.getElem?_set_self, hilen]
          exact (ih _ _ ht2 j rest hrest).cons₂ x
        · have hset : (ls.set i rest)[j]? = some l := by
            rw [List.getElem?_set_ne (fun hh => hij hh.symm)]
            exact hj
          exact (ih _ _ ht2 j l hset).cons x

/-! Concrete deterministic collaborator stubs, used to instantiate the
theorems below on closed inputs. -/

/-- A stub where every collaborator call succeeds with a fixed answer; the
query-generation stub answers a two-element list. -/
def okCollab : Collaborators :=
  ⟨fun _ => .ok ⟨"Overview", "Details", "Outlook"⟩,
   fun _ _ _ => .ok ["q1", "q2"],
   fun _ _ _ => .ok "corpus",
   fun _ _ _ _ => .ok "summary text",
   fun _ _ => .ok "final report text"⟩

/-- The terminal state simple_graph_ainvoke reaches on okCollab with topic
"t". -/
def ok_state : SimpleReportState :=
  ⟨"t",
   [("Section 1", "Overview"), ("Section 2", "Details"), ("Section 3", "Outlook")],
   [⟨"Section 1", ["q1", "q2"], "corpus", "summary text"⟩,
    ⟨"Section 2", ["q1", "q2"], "corpus", "summary text"⟩,
    ⟨"Section 3", ["q1", "q2"], "corpus", "summary text"⟩],
   "final report text"⟩

theorem okCollab_run :
    (simple_graph_ainvoke okCollab default_config true "t").result = .ok ok_state := rfl

/-- A stub identical to okCollab except that retrieval always raises. -/
def searchFailCollab : Collaborators :=
  ⟨fun _ => .ok ⟨"Overview", "Details", "Outlook"⟩,
   fun _ _ _ => .ok ["q1", "q2"],
   fun _ _ _ => .error ⟨"tavily quota exceeded"⟩,
   fun _ _ _ _ => .ok "summary text",
   fun _ _ => .ok "final report text"⟩

/-- A stub identical to okCollab except that retrieval returns an empty
corpus. -/
def emptyCollab : Collaborators :=
  ⟨fun _ => .ok ⟨"Overview", "Details", "Outlook"⟩,
   fun _ _ _ => .ok ["q1", "q2"],
   fun _ _ _ => .ok "",
   fun _ _ _ _ => .ok "summary text",
   fun _ _ => .ok "final report text"⟩

/-- A configuration whose max_results_per_query deviates from the default. -/
def cfg_seven : SimpleWorkflowConfiguration := ⟨"openai", "gpt-4o", "tavily", 3, 7⟩

/-- The section task okCollab's plan puts first. -/
def task_one : SectionProcessingState := ⟨"t", "Section 1", "Overview"⟩

/-! The claims. -/

/-- Claim C1: for any SectionPlan with K entries the Orchestrator dispatches
exactly K SectionTasks, one per plan entry in insertion order, and on
successful completion the accumulator holds exactly K SectionResults, one
per distinct section name, no duplicates, no omissions. -/
theorem fanout_completeness (c : Collaborators) (cfg : SimpleWorkflowConfiguration)
    (cb : Bool) (topic : String) (st : SimpleReportState)
    (h : (simple_graph_ainvoke c cfg cb topic).result = .ok st) :
    (∀ (tp : String) (secs : List (String × String)),
        (route_to_section_processing tp secs).length = secs.length ∧
        (route_to_section_processing tp secs).map SectionProcessingState.section_name
          = secs.map Prod.fst) ∧
    st.section_results.length = st.initial_sections.length ∧
    st.section_results.map SectionResult.section_name
      = st.initial_sections.map Prod.fst ∧
    (st.section_results.map SectionResult.section_name).Nodup := by
  constructor
  · intro tp secs
    constructor
    · simp [route_to_section_processing]
    · simp [route_to_section_processing]
  · rw [graph_ok_iff] at h
    obtain ⟨secs, results, report, hp, hc, hf, rfl⟩ := h
    obtain ⟨hlen, hnames⟩ := collect_map_names c cfg cb _ _ hc
    have htasks : (route_to_section_processing topic secs).map
        SectionProcessingState.section_name = secs.map Prod.fst := by
      simp [route_to_section_processing]
    have hkeys : secs.map Prod.fst = ["Section 1", "Section 2", "Section 3"] := by
      obtain ⟨r, _, rfl⟩ := (gis_ok_iff c cb topic secs).mp hp
      rfl
    refine ⟨?_, ?_, ?_⟩
    · simpa [route_to_section_processing] using hlen
    · simpa [htasks] using hnames
    · rw [show (⟨topic, secs, results, report⟩ : SimpleReportState).section_results
          = results from rfl, hnames, htasks, hkeys]
      decide

/-- Witness for C1 at the deterministic stub run. -/
theorem fanout_completeness_witness :
    ok_state.section_results.length = ok_state.initial_sections.length ∧
    ok_state.section_results.map SectionResult.section_name
      = ok_state.initial_sections.map Prod.fst ∧
    (ok_state.section_results.map SectionResult.section_name).Nodup := by
  have h := fanout_completeness okCollab default_config true "t" ok_state okCollab_run
  exact ⟨h.2.1, h.2.2.1, h.2.2.2⟩

/-- Claim C2: the merge reducer is list concatenation; it is associative,
commutative up to multiset equality, and the merged accumulator of the
singleton contributions of K settled tasks is, as a multiset, independent of
the completion order. -/
theorem merge_order_independence :
    (∀ a b c : List SectionResult, (a ++ b) ++ c = a ++ (b ++ c)) ∧
    (∀ a b : List SectionResult,
      (↑(merge_section_results [a, b]) : Multiset SectionResult)
        = ↑(merge_section_results [b, a])) ∧
    (∀ order1 order2 : List SectionResult, order1.Perm order2 →
      (↑(merge_section_results (order1.map fun r => [r])) : Multiset SectionResult)
        = ↑(merge_section_results (order2.map fun r => [r]))) := by
  refine ⟨fun a b c => List.append_assoc a b c, ?_, ?_⟩
  · intro a b
    have h1 : merge_section_results [a, b] = a ++ b := by
      simp [merge_section_results_eq_flatten]
    have h2 : merge_section_results [b, a] = b ++ a := by
      simp [merge_section_results_eq_flatten]
    rw [h1, h2]
    exact Multiset.coe_eq_coe.mpr List.perm_append_comm
  · intro order1 order2 hperm
    rw [merge_singletons, merge_singletons]
    exact Multiset.coe_eq_coe.mpr hperm

/-- Witness for C2 at a concrete permutation of two results. -/
theorem merge_order_independence_witness :
    (↑(merge_section_results ([(⟨"A", [], "", ""⟩ : SectionResult),
        ⟨"B", [], "", ""⟩].map fun r => [r])) : Multiset SectionResult)
      = ↑(merge_section_results ([(⟨"B", [], "", ""⟩ : SectionResult),
          ⟨"A", [], "", ""⟩].map fun r => [r])) :=
  merge_order_independence.2.2 _ _ (by decide)

/-- Claim C4: for every topic the planner either fails with a generation
error or returns a mapping with exactly the three keys "Section 1",
"Section 2", "Section 3" in creation order; it never returns a mapping with
fewer or more entries. -/
theorem planner_three_sections (c : Collaborators) (cb : Bool) (topic : String) :
    (∃ e, (generate_initial_summary c cb topic).2 = .error (.generation e)) ∨
    (∃ secs, (generate_initial_summary c cb topic).2 = .ok secs ∧
      secs.map Prod.fst = ["Section 1", "Section 2", "Section 3"] ∧
      secs.length = 3) := by
  unfold generate_initial_summary
  cases hp : c.plan_sections topic with
  | error e => exact Or.inl ⟨e, by simp⟩
  | ok r =>
    refine Or.inr ⟨[("Section 1", r.section_1), ("Section 2", r.section_2),
      ("Section 3", r.section_3)], ?_, rfl, rfl⟩
    simp [hp]

theorem attempted_prefix_status (c : Collaborators) (topic : String) (m : UpdateMessage)
    (h : m ∈ [initializing_update topic, app_planning_update] ++
      (simple_graph_ainvoke c default_config true topic).events.map app_status) :
    m.type = "status" := by
  rw [List.mem_append] at h
  cases h with
  | inl h =>
    simp only [List.mem_cons] at h
    rcases h with rfl | rfl | h
    · rfl
    · rfl
    · exact absurd h (List.not_mem_nil m)
  | inr h =>
    obtain ⟨ev, _, rfl⟩ := List.mem_map.mp h
    rfl

/-- Claim C3: if any one section task fails (in particular a SearchError
raised by the retrieval call is not caught inside the processor and
propagates), the run terminates with exactly one error notification carrying
a human-readable message and progress 0, no completion notification, and no
FinalReport. -/
theorem fail_fast (c : Collaborators) (topic : String) (secs : List (String × String))
    (s : SectionProcessingState) (e0 : RunError)
    (hplan : (generate_initial_summary c true topic).2 = .ok secs)
    (hs : s ∈ route_to_section_processing topic secs)
    (hfail : (process_section c default_config true s).result = .error e0) :
    (∀ (q : List String) (es : SearchError),
        c.generate_queries s.topic s.section_name s.section_description = .ok q →
        c.select_and_execute_search "tavily" q 5 = .error es →
        (process_section c default_config true s).result = .error (.search es)) ∧
    ∃ e, (simple_graph_ainvoke c default_config true topic).result = .error e ∧
      (attempted_messages c topic).countP (fun m => m.type == "error") = 1 ∧
      (attempted_messages c topic).countP (fun m => m.type == "complete") = 0 ∧
      (attempted_messages c topic).getLast? = some (error_update e) ∧
      (error_update e).progress = 0 ∧
      (error_update e).message = "Error during research: " ++ errString e := by
  constructor
  · intro q es hq hsearch
    unfold process_section
    simp [hq, hsearch]
  · obtain ⟨e, he⟩ := graph_error_of_task_fail c default_config true topic secs s e0
      hplan hs hfail
    have hatt : attempted_messages c topic =
        ([initializing_update topic, app_planning_update] ++
          (simple_graph_ainvoke c default_config true topic).events.map app_status) ++
        [error_update e] := by
      unfold attempted_messages
      rw [he]
    refine ⟨e, he, ?_, ?_, ?_, rfl, rfl⟩
    · rw [hatt, List.countP_append]
      have h0 : ([initializing_update topic, app_planning_update] ++
          (simple_graph_ainvoke c default_config true topic).events.map app_status).countP
            (fun m => m.type == "error") = 0 := by
        rw [List.countP_eq_zero]
        intro m hm
        rw [attempted_prefix_status c topic m hm]
        decide
      rw [h0]
      simp [error_update, List.countP_cons]
    · rw [hatt, List.countP_append]
      have h0 : ([initializing_update topic, app_planning_update] ++
          (simple_graph_ainvoke c default_config true topic).events.map app_status).countP
            (fun m => m.type == "complete") = 0 := by
        rw [List.countP_eq_zero]
        intro m hm
        rw [attempted_prefix_status c topic m hm]
        decide
      rw [h0]
      simp [error_update, List.countP_cons]
    · rw [hatt]
      exact List.getLast?_concat _

/-- Witness for C3: on the stub whose retrieval always raises, the first
dispatched task fails and the run surfaces exactly one error update. -/
theorem fail_fast_witness :
    ∃ e, (simple_graph_ainvoke searchFailCollab default_config true "t").result
        = .error e ∧
      (attempted_messages searchFailCollab "t").countP (fun m => m.type == "error") = 1 ∧
      (attempted_messages searchFailCollab "t").countP (fun m => m.type == "complete") = 0 ∧
      (attempted_messages searchFailCollab "t").getLast? = some (error_update e) ∧
      (error_update e).progress = 0 ∧
      (error_update e).message = "Error during research: " ++ errString e :=
  (fail_fast searchFailCollab "t"
    [("Section 1", "Overview"), ("Section 2", "Details"), ("Section 3", "Outlook")]
    task_one (.search ⟨"tavily quota exceeded"⟩) rfl (by decide) rfl).2

/-- Counterexample to C5: a successful Section Processor invocation under
the default configuration (queries-per-section = 3) whose SectionResult
carries 2 query strings: the processor accepts whatever list the model
returns and never consults the configured count. -/
theorem queries_count_counterexample :
    (process_section okCollab default_config true task_one).result
      = .ok ⟨"Section 1", ["q1", "q2"], "corpus", "summary text"⟩ ∧
    default_config.number_of_queries_per_section = 3 ∧
    (⟨"Section 1", ["q1", "q2"], "corpus", "summary text"⟩ : SectionResult).queries.length
      ≠ default_config.number_of_queries_per_section := by
  refine ⟨rfl, rfl, ?_⟩
  decide

/-- Amended C5: the SectionResult of a successful invocation carries exactly
the query list returned by the query-generation call, of whatever length the
model chose; the configured queries-per-section count is never consulted
(the whole invocation is independent of the configuration record). -/
theorem queries_passthrough (c : Collaborators) (cfg cfg2 : SimpleWorkflowConfiguration)
    (cb : Bool) (s : SectionProcessingState) :
    (∀ (q : List String) (r : SectionResult),
        c.generate_queries s.topic s.section_name s.section_description = .ok q →
        (process_section c cfg cb s).result = .ok r → r.queries = q) ∧
    process_section c cfg cb s = process_section c cfg2 cb s := by
  constructor
  · intro q r hq hr
    rw [process_section_ok_iff] at hr
    obtain ⟨q2, cs, sm, hq2, _, _, rfl⟩ := hr
    rw [hq] at hq2
    injection hq2 with hq2
    rw [hq2]
  · rfl

/-- Witness for amended C5 at the deterministic stub. -/
theorem queries_passthrough_witness :
    (⟨"Section 1", ["q1", "q2"], "corpus", "summary text"⟩ : SectionResult).queries
        = ["q1", "q2"] ∧
    process_section okCollab default_config true task_one
      = process_section okCollab cfg_seven true task_one := by
  have h := queries_passthrough okCollab default_config cfg_seven true task_one
  exact ⟨h.1 ["q1", "q2"] ⟨"Section 1", ["q1", "q2"], "corpus", "summary text"⟩ rfl rfl,
         queries_passthrough okCollab default_config cfg_seven true task_one |>.2⟩

/-- Counterexample to C6: under a configuration with max_results_per_query
= 7 the retrieval call still receives the hard-coded bound 5 of
simple_graph.py line 197, not the configured value. -/
theorem max_results_counterexample :
    (process_section okCollab cfg_seven true task_one).retrieval_calls
      = [⟨"tavily", ["q1", "q2"], 5⟩] ∧
    cfg_seven.max_results_per_query = 7 ∧
    (⟨"tavily", ["q1", "q2"], 5⟩ : RetrievalCall).max_results
      ≠ cfg_seven.max_results_per_query := by
  refine ⟨rfl, rfl, ?_⟩
  decide

/-- Amended C6: every retrieval call of a section task, and hence every
retrieval call of a whole run, passes the constant bound 5 (the default)
and the constant provider "tavily" whatever the configuration says, and the
behaviour of every section task is identical under any two configurations
of one run. -/
theorem retrieval_constant_params (c : Collaborators) (cfg cfg2 : SimpleWorkflowConfiguration)
    (cb : Bool) (s : SectionProcessingState) (topic : String) :
    (∀ call ∈ (process_section c cfg cb s).retrieval_calls,
        call.max_results = 5 ∧ call.search_api = "tavily") ∧
    process_section c cfg cb s = process_section c cfg2 cb s ∧
    (∀ call ∈ (simple_graph_ainvoke c cfg cb topic).retrieval_calls,
        call.max_results = 5 ∧ call.search_api = "tavily") := by
  refine ⟨process_calls_spec c cfg cb s, rfl, ?_⟩
  intro call hcall
  unfold simple_graph_ainvoke at hcall
  split at hcall
  next e heq => exact absurd hcall (List.not_mem_nil call)
  next secs heq =>
    have hmem : call ∈ ((route_to_section_processing topic secs).map
        fun s2 => (process_section c cfg cb s2).retrieval_calls).flatten := by
      split at hcall
      next => exact hcall
      next =>
        split at hcall
        next => exact hcall
        next => exact hcall
    simp only [List.mem_flatten, List.mem_map] at hmem
    obtain ⟨l, ⟨s2, hs2, rfl⟩, hmemc⟩ := hmem
    exact process_calls_spec c cfg cb s2 call hmemc

/-- Witness for amended C6 at the deterministic stub. -/
theorem retrieval_constant_params_witness :
    ((⟨"tavily", ["q1", "q2"], 5⟩ : RetrievalCall).max_results = 5 ∧
      (⟨"tavily", ["q1", "q2"], 5⟩ : RetrievalCall).search_api = "tavily") ∧
    process_section okCollab cfg_seven true task_one
      = process_section okCollab default_config true task_one := by
  constructor
  · exact (retrieval_constant_params okCollab cfg_seven default_config true task_one "t").1
      ⟨"tavily", ["q1", "q2"], 5⟩ (by decide)
  · exact (retrieval_constant_params okCollab cfg_seven default_config true task_one "t").2.1

/-- Totality of the language-model stubs: every structured or free-form
model call returns a conforming value. -/
def LMTotal (c : Collaborators) : Prop :=
  (∀ t, ∃ v, c.plan_sections t = .ok v) ∧
  (∀ a b d, ∃ v, c.generate_queries a b d = .ok v) ∧
  (∀ a b d e, ∃ v, c.summarize_section a b d e = .ok v) ∧
  (∀ a b, ∃ v, c.compile_report a b = .ok v)

/-- Claim C8: an empty corpus from the Search Provider is not an error: the
summarization stage is still invoked with the empty corpus, a SectionResult
is still produced, and when retrieval yields empty corpora everywhere the
whole pipeline completes normally. -/
theorem empty_corpus_not_error (c : Collaborators) (cfg : SimpleWorkflowConfiguration)
    (cb : Bool) (s : SectionProcessingState) (topic : String) (q : List String)
    (sm : String)
    (hq : c.generate_queries s.topic s.section_name s.section_description = .ok q)
    (hsearch : c.select_and_execute_search "tavily" q 5 = .ok "")
    (hsum : c.summarize_section s.topic s.section_name s.section_description "" = .ok sm) :
    (process_section c cfg cb s).result = .ok ⟨s.section_name, q, "", sm⟩ ∧
    (LMTotal c → (∀ api qs n, c.select_and_execute_search api qs n = .ok "") →
      ∃ st, (simple_graph_ainvoke c cfg cb topic).result = .ok st ∧
        st.section_results.length = 3 ∧
        ∀ r ∈ st.section_results, r.content = "") := by
  constructor
  · unfold process_section
    simp [hq, hsearch, hsum]
  · intro htot hempty
    obtain ⟨p, hp⟩ := htot.1 topic
    have hsecs : (generate_initial_summary c cb topic).2 =
        .ok [("Section 1", p.section_1), ("Section 2", p.section_2),
             ("Section 3", p.section_3)] := by
      rw [gis_ok_iff]
      exact ⟨p, hp, rfl⟩
    have htask : ∀ t : SectionProcessingState, ∃ r : SectionResult,
        (process_section c cfg cb t).result = .ok r ∧ r.content = "" := by
      intro t
      obtain ⟨qt, hqt⟩ := htot.2.1 t.topic t.section_name t.section_description
      obtain ⟨smt, hsmt⟩ := htot.2.2.1 t.topic t.section_name t.section_description ""
      refine ⟨⟨t.section_name, qt, "", smt⟩, ?_, rfl⟩
      rw [process_section_ok_iff]
      exact ⟨qt, "", smt, hqt, hempty "tavily" qt 5, hsmt, rfl⟩
    obtain ⟨r1, hr1, hc1⟩ := htask ⟨topic, "Section 1", p.section_1⟩
    obtain ⟨r2, hr2, hc2⟩ := htask ⟨topic, "Section 2", p.section_2⟩
    obtain ⟨r3, hr3, hc3⟩ := htask ⟨topic, "Section 3", p.section_3⟩
    obtain ⟨rep, hrep⟩ := htot.2.2.2 topic (sections_text [r1, r2, r3])
    have hfin : (generate_final_report c cb topic [r1, r2, r3]).2 = .ok rep := by
      unfold generate_final_report
      simp [hrep]
    refine ⟨⟨topic, [("Section 1", p.section_1), ("Section 2", p.section_2),
      ("Section 3", p.section_3)], [r1, r2, r3], rep⟩, ?_, rfl, ?_⟩
    · rw [graph_ok_iff]
      refine ⟨_, [r1, r2, r3], rep, hsecs, ?_, hfin, rfl⟩
      rw [collect_settlements_ok_iff]
      simp only [route_to_section_processing, List.map_cons, List.map_nil]
      rw [hr1, hr2, hr3]
    · intro r hr
      simp only [List.mem_cons, List.not_mem_nil, or_false] at hr
      rcases hr with rfl | rfl | rfl
      · exact hc1
      · exact hc2
      · exact hc3

/-- Witness for C8 at the stub whose retrieval returns an empty corpus. -/
theorem empty_corpus_not_error_witness :
    (process_section emptyCollab default_config true task_one).result
      = .ok ⟨"Section 1", ["q1", "q2"], "", "summary text"⟩ ∧
    ∃ st, (simple_graph_ainvoke emptyCollab default_config true "t").result = .ok st ∧
      st.section_results.length = 3 ∧
      ∀ r ∈ st.section_results, r.content = "" := by
  have h := empty_corpus_not_error emptyCollab default_config true task_one "t"
    ["q1", "q2"] "summary text" rfl rfl rfl
  refine ⟨h.1, h.2 ?_ ?_⟩
  · exact ⟨fun t => ⟨_, rfl⟩, fun a b d => ⟨_, rfl⟩, fun a b d e => ⟨_, rfl⟩,
      fun a b => ⟨_, rfl⟩⟩
  · intro api qs n
    rfl

theorem deliver_sent_sublist (f : Nat → Bool) (ms : List UpdateMessage) :
    ∀ (s : ConnState) (k : Nat),
    ∃ ds, (deliver_messages f s k ms).sent = s.sent ++ ds ∧ ds.Sublist ms := by
  induction ms with
  | nil =>
    intro s k
    exact ⟨[], by simp [deliver_messages], List.nil_sublist _⟩
  | cons m ms ih =>
    intro s k
    obtain ⟨ds, hds, hsub⟩ := ih (send_update (f k) s m) (k + 1)
    unfold deliver_messages
    by_cases hc : s.connected = true
    · by_cases hok : f k = true
      · refine ⟨m :: ds, ?_, hsub.cons₂ m⟩
        rw [hds]
        simp [send_update, hc, hok]
      · refine ⟨ds, ?_, hsub.cons m⟩
        rw [hds]
        simp [send_update, hc, hok]
    · refine ⟨ds, ?_, hsub.cons m⟩
      rw [hds]
      simp [send_update, hc]

/-- Claim C9: the core tolerates the absence of the progress callback (all
checkpoints become no-ops and the pipeline result is unchanged), and a
failing notification delivery is silently dropped by the connection manager
and never aborts the run: under every delivery-fault schedule the delivered
updates are a subsequence of the attempted ones and the terminal update —
determined solely by the pipeline result — is still attempted. -/
theorem notifier_isolation (c : Collaborators) (cfg : SimpleWorkflowConfiguration)
    (topic : String) (f : Nat → Bool) :
    (simple_graph_ainvoke c cfg false topic).events = [] ∧
    (simple_graph_ainvoke c cfg false topic).result
      = (simple_graph_ainvoke c cfg true topic).result ∧
    ((run_research_with_updates c f topic).sent).Sublist (attempted_messages c topic) ∧
    (attempted_messages c topic).getLast? =
      some (match (simple_graph_ainvoke c default_config true topic).result with
            | .ok _ => complete_update
            | .error e => error_update e) := by
  refine ⟨graph_events_nocb c cfg topic, graph_result_cb c cfg false topic, ?_, ?_⟩
  · obtain ⟨ds, hds, hsub⟩ := deliver_sent_sublist f (attempted_messages c topic)
      ⟨true, []⟩ 0
    unfold run_research_with_updates
    rw [hds]
    simpa using hsub
  · unfold attempted_messages
    cases hres : (simple_graph_ainvoke c default_config true topic).result with
    | ok st => exact List.getLast?_concat _
    | error e => exact List.getLast?_concat _

/-- Claim C10: with deterministic collaborators, running the pipeline with a
normally-returning progress callback and running it without one produce the
identical final state: same initial_sections, same multiset (indeed the
same list) of SectionResults, same final_report; the callback influences
only the emitted events. -/
theorem callback_noninterference (c : Collaborators) (cfg : SimpleWorkflowConfiguration)
    (topic : String) (st1 st2 : SimpleReportState)
    (h1 : (simple_graph_ainvoke c cfg true topic).result = .ok st1)
    (h2 : (simple_graph_ainvoke c cfg false topic).result = .ok st2) :
    st1.initial_sections = st2.initial_sections ∧
    (↑st1.section_results : Multiset SectionResult) = ↑st2.section_results ∧
    st1.final_report = st2.final_report ∧ st1 = st2 := by
  rw [graph_result_cb c cfg false topic, h1] at h2
  injection h2 with h2
  subst h2
  exact ⟨rfl, rfl, rfl, rfl⟩

/-- Witness for C10 at the deterministic stub run. -/
theorem callback_noninterference_witness :
    ok_state.initial_sections = ok_state.initial_sections ∧
    (↑ok_state.section_results : Multiset SectionResult) = ↑ok_state.section_results ∧
    ok_state.final_report = ok_state.final_report ∧ ok_state = ok_state :=
  callback_noninterference okCollab default_config "t" ok_state ok_state okCollab_run rfl

theorem getLast?_map_concat (l : List UpdateMessage) (m : UpdateMessage) :
    ((l ++ [m]).map UpdateMessage.progress).getLast? = some m.progress := by
  rw [List.map_append]
  exact List.getLast?_concat _

/-- A scheduling in which the first section task emits all three of its
checkpoints before the second task starts, and so on. -/
def bad_mid : List ProgressEvent :=
  [query_generation_event "Section 1", researching_event "Section 1",
   writing_event "Section 1",
   query_generation_event "Section 2", researching_event "Section 2",
   writing_event "Section 2",
   query_generation_event "Section 3", researching_event "Section 3",
   writing_event "Section 3"]

/-- The full update stream of the okCollab run under the bad_mid
scheduling. -/
def bad_trace : List UpdateMessage :=
  [initializing_update "t", app_planning_update] ++
  ((generate_initial_summary okCollab true "t").1 ++ bad_mid ++
   (generate_final_report okCollab true "t" ok_state.section_results).1).map app_status ++
  [complete_update]

/-- Counterexample to C7: a successful run has an interleaving of its
concurrent section tasks (task one finishes all its stages before task two
starts) whose emitted progress sequence 0, 10, 10, 25, 35, 50, 75, 35, ...
decreases from 75 back to 35, so the progress values of a successful run
are not non-decreasing in time order for every interleaving. -/
theorem progress_monotonic_counterexample :
    successful_run_trace okCollab "t" bad_trace ∧
    ¬ List.Chain' (fun a b => a ≤ b) (bad_trace.map UpdateMessage.progress) := by
  constructor
  · exact ⟨[("Section 1", "Overview"), ("Section 2", "Details"),
      ("Section 3", "Outlook")], bad_mid, ok_state, rfl, okCollab_run,
      ⟨[0, 0, 0, 1, 1, 1, 2, 2, 2], rfl⟩, rfl⟩
  · have hmap : bad_trace.map UpdateMessage.progress =
        [0, 10, 10, 25, 35, 50, 75, 35, 50, 75, 35, 50, 75, 90, 100] := rfl
    rw [hmap]
    simp only [List.chain'_cons, List.chain'_singleton]
    decide

/-- Amended C7: in every interleaving of a successful run the progress
stream starts at 0 and ends at 100, and the checkpoints of each individual
section task appear in it as a subsequence with non-decreasing progress
values 35, 50, 75; the stream as a whole need not be non-decreasing, but
the stage-aligned interleaving of the three tasks is. -/
theorem progress_monotone_within_tasks (c : Collaborators) (topic : String)
    (t : List UpdateMessage) (h : successful_run_trace c topic t) :
    (t.map UpdateMessage.progress).head? = some 0 ∧
    (t.map UpdateMessage.progress).getLast? = some 100 ∧
    (∃ secs, (generate_initial_summary c true topic).2 = .ok secs ∧
      ∀ s ∈ route_to_section_processing topic secs,
        List.Chain' (fun a b => a ≤ b)
          (((process_section c default_config true s).events).map ProgressEvent.progress) ∧
        (((process_section c default_config true s).events).map app_status).Sublist t) ∧
    ∃ t2, successful_run_trace c topic t2 ∧
      List.Chain' (fun a b => a ≤ b) (t2.map UpdateMessage.progress) := by
  obtain ⟨secs, mid, st, hplan, hres, ⟨choices, hinter⟩, ht⟩ := h
  obtain ⟨secs2, results, report, hp2, hc, hf, hstEq⟩ :=
    (graph_ok_iff c default_config true topic st).mp hres
  rw [hplan] at hp2
  injection hp2 with hp2
  subst hp2
  have hsubmid : ∀ s ∈ route_to_section_processing topic secs,
      ((process_section c default_config true s).events).Sublist mid := by
    intro s hs
    obtain ⟨i, hi, hgi⟩ := List.getElem_of_mem hs
    have hls : ((route_to_section_processing topic secs).map
        fun s2 => (process_section c default_config true s2).events)[i]?
        = some ((process_section c default_config true s).events) := by
      rw [List.getElem?_map, List.getElem?_eq_getElem hi, hgi]
      rfl
    exact interleaveRun_sublist choices _ mid hinter i _ hls
  have hok : ∀ s ∈ route_to_section_processing topic secs,
      ∃ r, (process_section c default_config true s).result = .ok r := by
    intro s hs
    rw [collect_settlements_ok_iff] at hc
    have hmem : (process_section c default_config true s).result ∈
        ((route_to_section_processing topic secs).map
          fun s2 => (process_section c default_config true s2).result) :=
      List.mem_map_of_mem _ hs
    rw [hc] at hmem
    obtain ⟨r, _, hr⟩ := List.mem_map.mp hmem
    exact ⟨r, hr.symm⟩
  refine ⟨?_, ?_, ?_, ?_⟩
  · rw [ht]
    rfl
  · rw [ht]
    exact getLast?_map_concat _ _
  · refine ⟨secs, hplan, fun s hs => ⟨?_, ?_⟩⟩
    · obtain ⟨r, hr⟩ := hok s hs
      rw [process_section_ok_events c default_config s r hr]
      simp [query_generation_event, researching_event, writing_event]
    · have h1 : (((process_section c default_config true s).events).map app_status).Sublist
          (mid.map app_status) := (hsubmid s hs).map app_status
      have h2 : (mid.map app_status).Sublist
          (((generate_initial_summary c true topic).1 ++ mid ++
            (generate_final_report c true topic st.section_results).1).map app_status) := by
        rw [List.map_append, List.map_append]
        exact ((List.sublist_append_right _ _).trans
          (List.sublist_append_left _ _))
      have h3 : (((generate_initial_summary c true topic).1 ++ mid ++
          (generate_final_report c true topic st.section_results).1).map
            app_status).Sublist t := by
        rw [ht]
        exact (List.sublist_append_right _ _).trans (List.sublist_append_left _ _)
      exact (h1.trans h2).trans h3
  · obtain ⟨p, hp, hsecsEq⟩ := (gis_ok_iff c true topic secs).mp hplan
    subst hsecsEq
    rw [collect_settlements_ok_iff] at hc
    simp only [route_to_section_processing, List.map_cons, List.map_nil] at hc
    cases results with
    | nil => exact absurd hc (by simp)
    | cons r1 rs1 =>
      cases rs1 with
      | nil => exact absurd hc (by simp)
      | cons r2 rs2 =>
        cases rs2 with
        | nil => exact absurd hc (by simp)
        | cons r3 rs3 =>
          cases rs3 with
          | cons r4 rs4 => exact absurd hc (by simp)
          | nil =>
            simp only [List.map_cons, List.map_nil, List.cons.injEq, and_true] at hc
            obtain ⟨h1, h2, h3⟩ := hc
            have hev1 := process_section_ok_events c default_config
              ⟨topic, "Section 1", p.section_1⟩ r1 h1
            have hev2 := process_section_ok_events c default_config
              ⟨topic, "Section 2", p.section_2⟩ r2 h2
            have hev3 := process_section_ok_events c default_config
              ⟨topic, "Section 3", p.section_3⟩ r3 h3
            have hls : ((route_to_section_processing topic
                [("Section 1", p.section_1), ("Section 2", p.section_2),
                 ("Section 3", p.section_3)]).map
                  fun s2 => (process_section c default_config true s2).events) =
                [[query_generation_event "Section 1", researching_event "Section 1",
                  writing_event "Section 1"],
                 [query_generation_event "Section 2", researching_event "Section 2",
                  writing_event "Section 2"],
                 [query_generation_event "Section 3", researching_event "Section 3",
                  writing_event "Section 3"]] := by
              simp only [route_to_section_processing, List.map_cons, List.map_nil]
              rw [hev1, hev2, hev3]
            refine ⟨[initializing_update topic, app_planning_update] ++
              (((generate_initial_summary c true topic).1 ++
                [query_generation_event "Section 1", query_generation_event "Section 2",
                 query_generation_event "Section 3", researching_event "Section 1",
                 researching_event "Section 2", researching_event "Section 3",
                 writing_event "Section 1", writing_event "Section 2",
                 writing_event "Section 3"] ++
                (generate_final_report c true topic st.section_results).1).map app_status) ++
              [complete_update], ⟨_, _, st, hplan, hres,
                ⟨[0, 1, 2, 0, 1, 2, 0, 1, 2], by rw [hls]; rfl⟩, rfl⟩, ?_⟩
            rw [gis_ok_events c topic _ hplan, gfr_events_cb_true]
            simp only [List.map_append, List.map_cons, List.map_nil, app_status,
              initializing_update, app_planning_update, complete_update, planning_event,
              planning_complete_event, query_generation_event, researching_event,
              writing_event, finalizing_event]
            simp only [List.cons_append, List.nil_append]
            simp only [List.chain'_cons, List.chain'_singleton]
            decide

/-- The stage-aligned scheduling of the three section tasks of the okCollab
run. -/
def aligned_mid : List ProgressEvent :=
  [query_generation_event "Section 1", query_generation_event "Section 2",
   query_generation_event "Section 3", researching_event "Section 1",
   researching_event "Section 2", researching_event "Section 3",
   writing_event "Section 1", writing_event "Section 2", writing_event "Section 3"]

/-- The full update stream of the okCollab run under the aligned
scheduling. -/
def aligned_trace : List UpdateMessage :=
  [initializing_update "t", app_planning_update] ++
  ((generate_initial_summary okCollab true "t").1 ++ aligned_mid ++
   (generate_final_report okCollab true "t" ok_state.section_results).1).map app_status ++
  [complete_update]

/-- Witness for amended C7 at the aligned scheduling of the stub run. -/
theorem progress_monotone_within_tasks_witness :
    (aligned_trace.map UpdateMessage.progress).head? = some 0 ∧
    (aligned_trace.map UpdateMessage.progress).getLast? = some 100 := by
  have hrun : successful_run_trace okCollab "t" aligned_trace :=
    ⟨[("Section 1", "Overview"), ("Section 2", "Details"), ("Section 3", "Outlook")],
      aligned_mid, ok_state, rfl, okCollab_run, ⟨[0, 1, 2, 0, 1, 2, 0, 1, 2], rfl⟩, rfl⟩
  have h := progress_monotone_within_tasks okCollab "t" aligned_trace hrun
  exact ⟨h.1, h.2.1⟩

end DeepResearch
